import Mathlib

/-!
Verification development for the alertmanager-webhook-servicenow receiver.

The Go program translates Prometheus AlertManager alert-group webhooks into
ServiceNow incidents.  This file gives a shallow embedding of the core logic
(`main.go`: the reconciliation workflow `onAlertGroup` / `onFiringGroup` /
`onResolvedGroup`, the incident builder `alertGroupToIncident`, the filters
`filterForUpdate` / `filterUpdatableIncidents`, the group-key deriver
`getGroupKey` including a full executable MD5, templating error handling
`applyIncidentTemplate`, and `validateIncident`), and proves the spec-level
properties about it.

Modelling conventions:
* Go `map[string]string` values (label sets, configuration maps, the
  string-valued incidents built by `alertGroupToIncident`) are association
  lists `List (String × String)`; Go map iteration order is unspecified, so
  the list order stands in for one arbitrary iteration order.
* Go `map[string]interface{}` incidents coming back from ServiceNow are
  `List (String × Option String)`: a `none` value models JSON `null`
  (Go `nil`), `some s` models a string value.
* The external collaborators (the `text/template` library and the
  ServiceNow REST client) are oracles passed in as parameters; the workflow
  is instrumented to also return the list of remote calls it makes, so that
  "create is called exactly once with payload p" is a statement about that
  trace.
* Machine integers are `Nat` with explicit reduction `% 2^32` where Go's
  `uint32` overflow matters (MD5).
-/

namespace SnWebhook

/-! ## Association-list maps (embedding of Go string maps) -/

/-- A Go `map[string]string`, as one iteration order of its entries. -/
abbrev StrMap := List (String × String)

/-- A Go `map[string]interface{}` incident record: `none` is Go `nil`. -/
abbrev Incident := List (String × Option String)

/-- Go map assignment `m[k] = v`: overwrite the binding if the key is
present, otherwise add it. -/
def setField (m : StrMap) (k v : String) : StrMap :=
  if m.any (fun p => p.1 = k) then
    m.map (fun p => if p.1 = k then (k, v) else p)
  else
    m ++ [(k, v)]

/-- Go map read `m[k]` for string maps (zero value `""` when absent). -/
def lookupD (m : StrMap) (k : String) : String :=
  match m with
  | [] => ""
  | p :: rest => if p.1 = k then p.2 else lookupD rest k

/-- Go map read `m[k]` on an incident: `none` when the key is absent,
`some v` when present with value `v` (`v = none` models a `nil` value). -/
def getRaw (m : Incident) (k : String) : Option (Option String) :=
  match m with
  | [] => none
  | p :: rest => if p.1 = k then some p.2 else getRaw rest k

/-- The key set of a map, in iteration order. -/
def keysOf (m : StrMap) : List String := m.map Prod.fst

/-! ## AlertManager payload (`template.Data`) -/

/-- One alert of `template.Data.Alerts`. -/
structure Alert where
  status : String
  startsAt : String
  labels : List (String × String)
  annotations : List (String × String)
deriving Repr, DecidableEq

/-- The AlertManager `template.Data` payload of one webhook call.  The
label/annotation maps are association lists (Go `template.KV` maps). -/
structure TmplData where
  receiver : String
  status : String
  alerts : List Alert
  groupLabels : List (String × String)
  commonLabels : List (String × String)
  commonAnnotations : List (String × String)
  externalURL : String
deriving Repr, DecidableEq

/-! ## Configuration (`Config`, `WorkflowConfig` of `main.go`) -/

/-- `WorkflowConfig`: `incident_group_key_field`, `no_update_states`,
`incident_update_fields`.  The two Go global lookup maps `noUpdateStates`
and `incidentUpdateFields` are built by `loadConfigContent` by setting every
listed entry to `true`, so a map lookup is exactly list membership here.
`json.Number` is a string type in Go; states are kept as strings. -/
structure WorkflowConfig where
  incidentGroupKeyField : String
  noUpdateStates : List String
  incidentUpdateFields : List String
deriving Repr, DecidableEq

/-- The parts of `Config` the workflow reads: the ServiceNow user name
(`caller_id` source), the workflow section, and `default_incident`. -/
structure Config where
  userName : String
  workflow : WorkflowConfig
  defaultIncident : List (String × String)
deriving Repr, DecidableEq

/-! ## Group key derivation (`getGroupKey` of `main.go`)

`getGroupKey` is `fmt.Sprintf("%x", md5.Sum([]byte(fmt.Sprintf("%v",
data.GroupLabels.SortedPairs()))))`.  `SortedPairs` (alertmanager
`template.KV`) collects the keys of the label map, sorts them with
`sort.Strings`, and emits the `(key, value)` pairs in that key order. -/

/-- `template.KV.SortedPairs`: sort the keys, then read each value back.
Any correct string sort yields the same output list, so insertion sort
stands in for Go's `sort.Strings`. -/
def sortedPairs (kv : List (String × String)) : List (String × String) :=
  ((kv.map Prod.fst).insertionSort (· ≤ ·)).map (fun k => (k, lookupD kv k))

/-- `fmt.Sprintf("%v", pair)` for an alertmanager `template.Pair` struct:
`\x7bname value\x7d`. -/
def pairString (p : String × String) : String :=
  "\x7b" ++ p.1 ++ " " ++ p.2 ++ "\x7d"

/-- `fmt.Sprintf("%v", pairs)` for a slice of pairs: elements separated by
single spaces, inside square brackets. -/
def pairsString (ps : List (String × String)) : String :=
  "[" ++ String.intercalate " " (ps.map pairString) ++ "]"

/-- UTF-8 encoding of one character (Go strings are UTF-8 bytes). -/
def utf8Char (c : Char) : List Nat :=
  let n := c.toNat
  if n < 128 then [n]
  else if n < 2048 then [192 + n / 64, 128 + n % 64]
  else if n < 65536 then [224 + n / 4096, 128 + (n / 64) % 64, 128 + n % 64]
  else [240 + n / 262144, 128 + (n / 4096) % 64, 128 + (n / 64) % 64, 128 + n % 64]

/-- The UTF-8 bytes of a string, as natural numbers below 256. -/
def strBytes (s : String) : List Nat :=
  (s.data.map utf8Char).flatten

/-! ### MD5 (crypto/md5), on `Nat` with explicit mod-2^32 reduction -/

/-- Truncate to 32 bits. -/
def w32 (n : Nat) : Nat := n % 4294967296

/-- 32-bit bitwise complement. -/
def not32 (n : Nat) : Nat := 4294967295 - w32 n

/-- 32-bit left rotation by `s` bits. -/
def rotl32 (x s : Nat) : Nat :=
  w32 (x * 2 ^ s) + (w32 x) / 2 ^ (32 - s)

/-- The 64 MD5 sine-derived round constants. -/
def md5K : List Nat :=
  [0xd76aa478, 0xe8c7b756, 0x242070db, 0xc1bdceee,
   0xf57c0faf, 0x4787c62a, 0xa8304613, 0xfd469501,
   0x698098d8, 0x8b44f7af, 0xffff5bb1, 0x895cd7be,
   0x6b901122, 0xfd987193, 0xa679438e, 0x49b40821,
   0xf61e2562, 0xc040b340, 0x265e5a51, 0xe9b6c7aa,
   0xd62f105d, 0x02441453, 0xd8a1e681, 0xe7d3fbc8,
   0x21e1cde6, 0xc33707d6, 0xf4d50d87, 0x455a14ed,
   0xa9e3e905, 0xfcefa3f8, 0x676f02d9, 0x8d2a4c8a,
   0xfffa3942, 0x8771f681, 0x6d9d6122, 0xfde5380c,
   0xa4beea44, 0x4bdecfa9, 0xf6bb4b60, 0xbebfbc70,
   0x289b7ec6, 0xeaa127fa, 0xd4ef3085, 0x04881d05,
   0xd9d4d039, 0xe6db99e5, 0x1fa27cf8, 0xc4ac5665,
   0xf4292244, 0x432aff97, 0xab9423a7, 0xfc93a039,
   0x655b59c3, 0x8f0ccc92, 0xffeff47d, 0x85845dd1,
   0x6fa87e4f, 0xfe2ce6e0, 0xa3014314, 0x4e0811a1,
   0xf7537e82, 0xbd3af235, 0x2ad7d2bb, 0xeb86d391]

/-- The 64 MD5 per-round left-rotation amounts. -/
def md5S : List Nat :=
  [7, 12, 17, 22, 7, 12, 17, 22, 7, 12, 17, 22, 7, 12, 17, 22,
   5, 9, 14, 20, 5, 9, 14, 20, 5, 9, 14, 20, 5, 9, 14, 20,
   4, 11, 16, 23, 4, 11, 16, 23, 4, 11, 16, 23, 4, 11, 16, 23,
   6, 10, 15, 21, 6, 10, 15, 21, 6, 10, 15, 21, 6, 10, 15, 21]

/-- MD5 padding: append `0x80`, zero-pad to 56 mod 64, then the original
bit length as a 64-bit little-endian quantity. -/
def md5Pad (msg : List Nat) : List Nat :=
  let len := msg.length
  let zeros := (119 - len % 64) % 64
  let bitLen := (len * 8) % 18446744073709551616
  msg ++ [128] ++ List.replicate zeros 0 ++
    [bitLen % 256, bitLen / 256 % 256, bitLen / 65536 % 256,
     bitLen / 16777216 % 256, bitLen / 4294967296 % 256,
     bitLen / 1099511627776 % 256, bitLen / 281474976710656 % 256,
     bitLen / 72057594037927936 % 256]

/-- Little-endian 32-bit word `g` of a 64-byte chunk. -/
def chunkWord (chunk : List Nat) (g : Nat) : Nat :=
  chunk.getD (4 * g) 0 + 256 * chunk.getD (4 * g + 1) 0 +
    65536 * chunk.getD (4 * g + 2) 0 + 16777216 * chunk.getD (4 * g + 3) 0

/-- One MD5 round `i` on state `(A, B, C, D)` for the given chunk. -/
def md5Round (chunk : List Nat) (st : Nat × Nat × Nat × Nat) (i : Nat) :
    Nat × Nat × Nat × Nat :=
  let (a, b, c, d) := st
  let f :=
    if i < 16 then (b &&& c) ||| (not32 b &&& d)
    else if i < 32 then (d &&& b) ||| (not32 d &&& c)
    else if i < 48 then b ^^^ c ^^^ d
    else c ^^^ (b ||| not32 d)
  let g :=
    if i < 16 then i
    else if i < 32 then (5 * i + 1) % 16
    else if i < 48 then (3 * i + 5) % 16
    else (7 * i) % 16
  let f := w32 (f + a + md5K.getD i 0 + chunkWord chunk g)
  (d, w32 (b + rotl32 f (md5S.getD i 0)), b, c)

/-- Process one 64-byte chunk: 64 rounds then add into the running state. -/
def md5Chunk (st : Nat × Nat × Nat × Nat) (chunk : List Nat) :
    Nat × Nat × Nat × Nat :=
  let (a0, b0, c0, d0) := st
  let (a, b, c, d) := (List.range 64).foldl (md5Round chunk) (a0, b0, c0, d0)
  (w32 (a0 + a), w32 (b0 + b), w32 (c0 + c), w32 (d0 + d))

/-- A 32-bit word as its four little-endian bytes. -/
def le32bytes (x : Nat) : List Nat :=
  [x % 256, x / 256 % 256, x / 65536 % 256, x / 16777216 % 256]

/-- `md5.Sum`: the 16-byte MD5 digest of a byte sequence. -/
def md5Bytes (msg : List Nat) : List Nat :=
  let padded := md5Pad msg
  let numChunks := padded.length / 64
  let st := (List.range numChunks).foldl
    (fun st i => md5Chunk st ((padded.drop (64 * i)).take 64))
    (0x67452301, 0xefcdab89, 0x98badcfe, 0x10325476)
  le32bytes st.1 ++ le32bytes st.2.1 ++ le32bytes st.2.2.1 ++ le32bytes st.2.2.2

/-- The lowercase hexadecimal alphabet. -/
def lowercaseHexDigits : List Char :=
  "0123456789abcdef".data

/-- Lowercase hexadecimal digit of a value below 16 (`'0'` otherwise). -/
def hexChar (n : Nat) : Char :=
  lowercaseHexDigits.getD n '0'

/-- `fmt.Sprintf("%x", bytes)`: two lowercase hex digits per byte. -/
def toHex (bs : List Nat) : String :=
  ⟨(bs.map (fun b => [hexChar (b / 16 % 16), hexChar (b % 16)])).flatten⟩

/-- `getGroupKey` of `main.go`: the lowercase-hex MD5 of the `%v` rendering
of the sorted group-label pairs. -/
def getGroupKey (data : TmplData) : String :=
  toHex (md5Bytes (strBytes (pairsString (sortedPairs data.groupLabels))))

/-! ## Incident accessors -/

/-- `Incident.GetSysID`: `i["sys_id"].(string)`.  Go panics when the field
is missing or nil; that (never-exercised) path is totalized to `""`. -/
def Incident.GetSysID (i : Incident) : String :=
  ((getRaw i "sys_id").getD none).getD ""

/-- Modelled from the spec: the `GetState` accessor of an existing incident
record — its Go definition is not among the source files, only its callers
(`filterUpdatableIncidents` and log lines) are.  Per the spec, an existing
incident record "contains at minimum a unique identifier, a human-readable
number, and a lifecycle state code", with "typed accessor helpers for the
handful of well-known fields (ID, number, state)"; so the accessor reads the
record's `state` field (a `json.Number`, i.e. a string).  The missing/nil
panic path is totalized to `""`. -/
def Incident.GetState (i : Incident) : String :=
  ((getRaw i "state").getD none).getD ""

/-! ## Filters (`filterForUpdate`, `filterUpdatableIncidents`) -/

/-- `filterForUpdate` of `main.go`: keep only the fields whose name is in
the `incident_update_fields` whitelist (the Go global `incidentUpdateFields`
set, passed here as the configuration list it is built from). -/
def filterForUpdate (updateFields : List String) (incident : StrMap) : StrMap :=
  incident.filter (fun p => updateFields.contains p.1)

/-- `filterUpdatableIncidents` of `main.go`: keep the incidents whose state
is not in the `no_update_states` set (the Go global `noUpdateStates`). -/
def filterUpdatableIncidents (noUpdateStates : List String)
    (incidents : List Incident) : List Incident :=
  incidents.filter (fun i => !(noUpdateStates.contains i.GetState))

/-! ## Templating (`applyTemplate`, `applyIncidentTemplate`)

The `text/template` library is an external collaborator; it enters the
embedding as a `Renderer` oracle giving, for a template name, template body
and data, either the rendered string or the library's error text.  Both
failure branches of the Go `applyTemplate` (parse error and execute error)
return the pair `("", err)`, which is what `applyTemplate` mirrors. -/

/-- The `text/template` parse+execute oracle. -/
abbrev Renderer := String → String → TmplData → Except String String

/-- `applyTemplate` of `main.go`: render, or return `""` plus the error. -/
def applyTemplate (render : Renderer) (name text : String) (data : TmplData) :
    String × Option String :=
  match render name text data with
  | .error e => ("", some e)
  | .ok s => (s, none)

/-- The wrapped per-field template error message of `applyIncidentTemplate`. -/
def templateErrMsg (key value err : String) : String :=
  "Error parsing default incident template for key:" ++ key ++ " value:" ++
    value ++ ", error:" ++ err

/-- `applyIncidentTemplate` of `main.go`: re-render every field in place
through `applyTemplate`, collecting (not raising) the per-field errors. -/
def applyIncidentTemplate (render : Renderer) (incident : StrMap)
    (data : TmplData) : StrMap × List String :=
  match incident with
  | [] => ([], [])
  | (k, v) :: rest =>
    let r := applyTemplate render k v data
    let tl := applyIncidentTemplate render rest data
    ((k, r.1) :: tl.1,
     (match r.2 with
      | some e => [templateErrMsg k v e]
      | none => []) ++ tl.2)

/-! ## Validation (`validateIncident`) -/

/-- One decimal digit (code points 48 to 57). -/
def isDigit (c : Char) : Bool := 48 ≤ c.toNat && c.toNat ≤ 57

/-- Decimal value of a digit list. -/
def digitsVal (cs : List Char) : Nat :=
  cs.foldl (fun a c => 10 * a + (c.toNat - 48)) 0

/-- Success predicate of Go's `strconv.Atoi` (64-bit platform): optional
sign, then at least one digit, with the value inside the `int64` range. -/
def atoiOk (s : String) : Bool :=
  match s.data with
  | [] => false
  | c :: rest =>
    let signed : Bool × List Char :=
      if c = '-' then (true, rest)
      else if c = '+' then (false, rest)
      else (false, c :: rest)
    !signed.2.isEmpty && signed.2.all isDigit &&
      (if signed.1 then digitsVal signed.2 ≤ 9223372036854775808
       else digitsVal signed.2 ≤ 9223372036854775807)

/-- The advisory validation error message of `validateIncident`. -/
def validationMsg (field value : String) : String :=
  "\x27" ++ field ++ "\x27 field value is \x27" ++ value ++
    "\x27 but should be an integer, please fix your configuration. " ++
    "Incident creation/update will proceed but this field will be missing"

/-- `validateIncident` of `main.go`: for `impact` and `urgency`, when the
field is present, non-nil and a non-empty string, check it parses as an
integer; collect (never raise) the errors.  The function only reads the
incident, so the post-state returned alongside the errors is the input. -/
def validateIncident (incident : Incident) : Incident × List String :=
  let impactErrs :=
    match getRaw incident "impact" with
    | some (some s) =>
      if s.length > 0 && !atoiOk s then [validationMsg "impact" s] else []
    | _ => []
  let urgencyErrs :=
    match getRaw incident "urgency" with
    | some (some s) =>
      if s.length > 0 && !atoiOk s then [validationMsg "urgency" s] else []
    | _ => []
  (incident, impactErrs ++ urgencyErrs)

/-! ## Incident builder (`alertGroupToIncident`) -/

/-- The base mapping of `alertGroupToIncident` before templating: the
`caller_id` / group-key-field literal (entries assigned in source order, so
a group-key field literally named `caller_id` overwrites the first entry,
as in Go), then the `default_incident` entries overlaid. -/
def baseIncident (cfg : Config) (data : TmplData) : StrMap :=
  let lit := setField (setField [] "caller_id" cfg.userName)
    cfg.workflow.incidentGroupKeyField (getGroupKey data)
  cfg.defaultIncident.foldl (fun m p => setField m p.1 p.2) lit

/-- The candidate incident: the base mapping after the templating pass. -/
def candidateIncident (cfg : Config) (render : Renderer) (data : TmplData) :
    StrMap :=
  (applyIncidentTemplate render (baseIncident cfg data) data).1

/-- A string-valued incident as a general incident record. -/
def toIncident (m : StrMap) : Incident := m.map (fun p => (p.1, some p.2))

/-- `alertGroupToIncident` of `main.go`: build the base mapping, template
it, validate it; template and validation errors are logged only, and the
function always ends in `return incident, nil`. -/
def alertGroupToIncident (cfg : Config) (render : Renderer)
    (data : TmplData) : Except String StrMap :=
  let incident := baseIncident cfg data
  let templated := applyIncidentTemplate render incident data
  let _templateErrs := templated.2
  let _validationErrs := (validateIncident (toIncident templated.1)).2
  .ok templated.1

/-! ## The ServiceNow client oracle and the instrumented workflow

The REST client is external; it enters as an `SnOracle`.  Every workflow
function returns, next to its Go return value, the list of remote calls it
performed, in order. -/

/-- One remote ServiceNow call, with its payload. -/
inductive SnCall where
  | getIncidents (params : StrMap)
  | create (incident : StrMap)
  | update (payload : StrMap) (sysID : String)
deriving Repr, DecidableEq

/-- Whether a call is a `CreateIncident` call. -/
def SnCall.isCreate : SnCall → Bool
  | .create _ => true
  | _ => false

/-- Whether a call is an `UpdateIncident` call. -/
def SnCall.isUpdate : SnCall → Bool
  | .update _ _ => true
  | _ => false

/-- The ServiceNow client interface (`ServiceNow` of `servicenow.go`). -/
structure SnOracle where
  getIncidents : StrMap → Except String (List Incident)
  createIncident : StrMap → Except String Incident
  updateIncident : StrMap → String → Except String Incident

/-- `onFiringGroup` of `main.go`: create when no updatable incident exists,
otherwise update the updatable one with the whitelist-filtered payload. -/
def onFiringGroup (cfg : Config) (render : Renderer) (sn : SnOracle)
    (data : TmplData) (updatableIncident : Option Incident) :
    Except String Unit × List SnCall :=
  match alertGroupToIncident cfg render data with
  | .error e => (.error e, [])
  | .ok incidentCreateParam =>
    let incidentUpdateParam :=
      filterForUpdate cfg.workflow.incidentUpdateFields incidentCreateParam
    match updatableIncident with
    | none =>
      match sn.createIncident incidentCreateParam with
      | .error e => (.error e, [.create incidentCreateParam])
      | .ok _ => (.ok (), [.create incidentCreateParam])
    | some inc =>
      match sn.updateIncident incidentUpdateParam inc.GetSysID with
      | .error e => (.error e, [.update incidentUpdateParam inc.GetSysID])
      | .ok _ => (.ok (), [.update incidentUpdateParam inc.GetSysID])

/-- `onResolvedGroup` of `main.go`: update the updatable incident when one
exists, otherwise do nothing (logged, not an error). -/
def onResolvedGroup (cfg : Config) (render : Renderer) (sn : SnOracle)
    (data : TmplData) (updatableIncident : Option Incident) :
    Except String Unit × List SnCall :=
  match alertGroupToIncident cfg render data with
  | .error e => (.error e, [])
  | .ok incidentCreateParam =>
    let incidentUpdateParam :=
      filterForUpdate cfg.workflow.incidentUpdateFields incidentCreateParam
    match updatableIncident with
    | none => (.ok (), [])
    | some inc =>
      match sn.updateIncident incidentUpdateParam inc.GetSysID with
      | .error e => (.error e, [.update incidentUpdateParam inc.GetSysID])
      | .ok _ => (.ok (), [.update incidentUpdateParam inc.GetSysID])

/-- `onAlertGroup` of `main.go`: query by group key (a query failure is
returned after the — then vacuous — filtering), pick the first updatable
incident if any, then branch on the alert-group status; a status other
than `firing`/`resolved` is only logged. -/
def onAlertGroup (cfg : Config) (render : Renderer) (sn : SnOracle)
    (data : TmplData) : Except String Unit × List SnCall :=
  let getParams : StrMap :=
    [(cfg.workflow.incidentGroupKeyField, getGroupKey data)]
  match sn.getIncidents getParams with
  | .error e => (.error e, [.getIncidents getParams])
  | .ok existingIncidents =>
    let updatableIncidents :=
      filterUpdatableIncidents cfg.workflow.noUpdateStates existingIncidents
    let updatableIncident := updatableIncidents.head?
    let tail :=
      if data.status = "firing" then
        onFiringGroup cfg render sn data updatableIncident
      else if data.status = "resolved" then
        onResolvedGroup cfg render sn data updatableIncident
      else
        (.ok (), [])
    (tail.1, .getIncidents getParams :: tail.2)

/-! ## The webhook handler (`webhook` of `main.go`) -/

/-- The webhook JSON response. -/
structure JSONResponse where
  Status : Nat
  Message : String
deriving Repr, DecidableEq

/-- `webhook` of `main.go`, over the result of the (external) JSON decode
of the request body: 400 with the parse error text on a decode failure,
500 with the underlying error text when the workflow fails, and 200 with
`"Success"` otherwise. -/
def webhook (cfg : Config) (render : Renderer) (sn : SnOracle)
    (parsed : Except String TmplData) : JSONResponse × List SnCall :=
  match parsed with
  | .error e => (⟨400, e⟩, [])
  | .ok data =>
    match onAlertGroup cfg render sn data with
    | (.error e, calls) => (⟨500, e⟩, calls)
    | (.ok _, calls) => (⟨200, "Success"⟩, calls)

/-! ## Concrete fixtures (used by witnesses and counterexamples) -/

/-- A renderer that renders every template to its own body (as
`text/template` does on bodies without directives). -/
def renderId : Renderer := fun _ text _ => .ok text

/-- A workflow configuration mirroring `config/servicenow_example.yml`. -/
def cfgW : Config :=
  { userName := "SA"
    workflow :=
      { incidentGroupKeyField := "u_other_reference_1"
        noUpdateStates := ["6", "7"]
        incidentUpdateFields := ["comments"] }
    defaultIncident := [("comments", "New alert")] }

/-- A firing alert group. -/
def dataFiringW : TmplData :=
  { receiver := "servicenow"
    status := "firing"
    alerts := []
    groupLabels := [("alertname", "HighCPU")]
    commonLabels := []
    commonAnnotations := []
    externalURL := "http://alertmanager" }

/-- The same alert group, resolved. -/
def dataResolvedW : TmplData := { dataFiringW with status := "resolved" }

/-- A firing alert group with two grouping labels. -/
def dataTwoLabelsW : TmplData :=
  { dataFiringW with
    groupLabels := [("alertname", "HighCPU"), ("instance", "web-1")] }

/-- An existing incident in an updatable state. -/
def incUpdatableW : Incident :=
  [("sys_id", some "424242"), ("number", some "INC42"), ("state", some "1")]

/-- An existing incident in a terminal (`no_update_states`) state. -/
def incTerminalW : Incident :=
  [("sys_id", some "555"), ("number", some "INC55"), ("state", some "7")]

/-- A ServiceNow oracle with no existing incidents. -/
def snEmptyW : SnOracle :=
  { getIncidents := fun _ => .ok []
    createIncident := fun _ => .ok []
    updateIncident := fun _ _ => .ok [] }

/-- A ServiceNow oracle returning one updatable incident. -/
def snOneW : SnOracle :=
  { getIncidents := fun _ => .ok [incUpdatableW]
    createIncident := fun _ => .ok []
    updateIncident := fun _ _ => .ok [] }

/-- A ServiceNow oracle returning one terminal incident. -/
def snTerminalW : SnOracle :=
  { getIncidents := fun _ => .ok [incTerminalW]
    createIncident := fun _ => .ok []
    updateIncident := fun _ _ => .ok [] }

/-- A ServiceNow oracle whose query fails. -/
def snGetFailW : SnOracle :=
  { getIncidents := fun _ => .error "Error"
    createIncident := fun _ => .ok []
    updateIncident := fun _ _ => .ok [] }

/-- A ServiceNow oracle whose create fails. -/
def snCreateFailW : SnOracle :=
  { getIncidents := fun _ => .ok []
    createIncident := fun _ => .error "Error"
    updateIncident := fun _ _ => .ok [] }

/-- A configuration that puts the lifecycle `state` field into both
`default_incident` and `incident_update_fields`. -/
def cfgStateX : Config :=
  { userName := "SA"
    workflow :=
      { incidentGroupKeyField := "u_other_reference_1"
        noUpdateStates := ["6", "7"]
        incidentUpdateFields := ["state"] }
    defaultIncident := [("state", "3")] }

/-! ## Helper lemmas -/

/-- `alertGroupToIncident` always succeeds, with the candidate incident. -/
theorem alertGroupToIncident_eq (cfg : Config) (render : Renderer)
    (data : TmplData) :
    alertGroupToIncident cfg render data = .ok (candidateIncident cfg render data) :=
  rfl


theorem keysOf_applyIncidentTemplate (render : Renderer) (incident : StrMap)
    (data : TmplData) :
    keysOf (applyIncidentTemplate render incident data).1 = keysOf incident := by
  induction incident with
  | nil => rfl
  | cons p rest ih =>
    obtain ⟨a, b⟩ := p
    simp only [applyIncidentTemplate, keysOf, List.map_cons] at *
    rw [ih]

theorem setField_updater_fst (k v : String) (p : String × String) :
    (if p.1 = k then (k, v) else p).1 = p.1 := by
  by_cases h : p.1 = k <;> simp [h]

theorem any_key_iff (m : StrMap) (k : String) :
    (m.any fun p => p.1 = k) = true ↔ k ∈ keysOf m := by
  simp only [keysOf, List.any_eq_true, decide_eq_true_eq, List.mem_map]

theorem keysOf_setField (m : StrMap) (k v : String) :
    keysOf (setField m k v) =
      if k ∈ keysOf m then keysOf m else keysOf m ++ [k] := by
  unfold setField
  by_cases h : k ∈ keysOf m
  · rw [if_pos ((any_key_iff m k).mpr h), if_pos h]
    unfold keysOf
    rw [List.map_map]
    exact List.map_congr_left (fun p _ => setField_updater_fst k v p)
  · rw [if_neg (fun hc => h ((any_key_iff m k).mp hc)), if_neg h]
    simp [keysOf]

theorem lookupD_append_ne (m : StrMap) (k v j : String) (h : j ≠ k) :
    lookupD (m ++ [(k, v)]) j = lookupD m j := by
  induction m with
  | nil =>
    have hk : ¬ (k = j) := fun hh => h hh.symm
    simp [lookupD, hk]
  | cons p rest ih =>
    by_cases hp : p.1 = j <;> simp [lookupD, hp, ih]

theorem lookupD_map_set_ne (m : StrMap) (k v j : String) (h : j ≠ k) :
    lookupD (m.map (fun p => if p.1 = k then (k, v) else p)) j = lookupD m j := by
  induction m with
  | nil => rfl
  | cons p rest ih =>
    by_cases hp : p.1 = k
    · have hkj : ¬ (k = j) := fun hh => h hh.symm
      have hpj : ¬ (p.1 = j) := by rw [hp]; exact hkj
      simp [lookupD, hp, hkj, hpj, ih]
    · by_cases hpj : p.1 = j <;> simp [lookupD, hp, hpj, ih, h]

theorem lookupD_setField_ne (m : StrMap) (k v j : String) (h : j ≠ k) :
    lookupD (setField m k v) j = lookupD m j := by
  unfold setField
  split
  · exact lookupD_map_set_ne m k v j h
  · exact lookupD_append_ne m k v j h

theorem lookupD_map_setHit (m : StrMap) (k v : String)
    (hm : (m.any fun p => p.1 = k) = true) :
    lookupD (m.map (fun p => if p.1 = k then (k, v) else p)) k = v := by
  induction m with
  | nil => simp at hm
  | cons p rest ih =>
    by_cases hp : p.1 = k
    · simp [lookupD, hp]
    · have hr : (rest.any fun q => q.1 = k) = true := by
        simpa [List.any_cons, hp] using hm
      simp [lookupD, hp, ih hr]

theorem lookupD_append_hit (m : StrMap) (k v : String)
    (hm : (m.any fun p => p.1 = k) = false) :
    lookupD (m ++ [(k, v)]) k = v := by
  induction m with
  | nil => simp [lookupD]
  | cons p rest ih =>
    simp only [List.any_cons, Bool.or_eq_false_iff] at hm
    have hp : ¬ (p.1 = k) := by simpa using hm.1
    simp [lookupD, hp, ih hm.2]

theorem lookupD_setField_self (m : StrMap) (k v : String) :
    lookupD (setField m k v) k = v := by
  unfold setField
  cases hm : (m.any fun p => p.1 = k) with
  | true => rw [if_pos rfl]; exact lookupD_map_setHit m k v hm
  | false => rw [if_neg (by decide)]; exact lookupD_append_hit m k v hm

theorem mem_keysOf_setField_self (m : StrMap) (k v : String) :
    k ∈ keysOf (setField m k v) := by
  rw [keysOf_setField]
  by_cases h : k ∈ keysOf m <;> simp [h]

theorem mem_keysOf_setField_of_mem (m : StrMap) (k v j : String)
    (h : j ∈ keysOf m) : j ∈ keysOf (setField m k v) := by
  rw [keysOf_setField]
  by_cases hk : k ∈ keysOf m <;> simp [hk, h]

theorem mem_keysOf_foldl_setField (l : List (String × String)) (m : StrMap)
    (j : String) (h : j ∈ keysOf m) :
    j ∈ keysOf (l.foldl (fun m p => setField m p.1 p.2) m) := by
  induction l generalizing m with
  | nil => exact h
  | cons p rest ih =>
    exact ih _ (mem_keysOf_setField_of_mem _ _ _ _ h)

theorem lookupD_foldl_setField (l : List (String × String)) (m : StrMap)
    (j : String) (h : ∀ p ∈ l, p.1 ≠ j) :
    lookupD (l.foldl (fun m p => setField m p.1 p.2) m) j = lookupD m j := by
  induction l generalizing m with
  | nil => rfl
  | cons p rest ih =>
    rw [List.foldl_cons, ih _ (fun q hq => h q (List.mem_cons_of_mem _ hq)),
      lookupD_setField_ne]
    exact fun hh => h p (List.mem_cons_self _ _) hh.symm

theorem keysOf_setField_subset (m : StrMap) (k v : String) :
    keysOf (setField m k v) ⊆ k :: keysOf m := by
  rw [keysOf_setField]
  by_cases h : k ∈ keysOf m
  · rw [if_pos h]
    exact List.subset_cons_self _ _
  · rw [if_neg h]
    intro x hx
    rcases List.mem_append.mp hx with h1 | h2
    · exact List.mem_cons_of_mem _ h1
    · simp only [List.mem_singleton] at h2
      simp [h2]

theorem keysOf_foldl_setField_subset (l : List (String × String)) (m : StrMap) :
    keysOf (l.foldl (fun m p => setField m p.1 p.2) m) ⊆ keysOf m ++ keysOf l := by
  induction l generalizing m with
  | nil => simp [keysOf]
  | cons p rest ih =>
    intro x hx
    rcases List.mem_append.mp (ih (setField m p.1 p.2) hx) with h1 | h2
    · rcases List.mem_cons.mp (keysOf_setField_subset m p.1 p.2 h1) with h | h
      · exact List.mem_append.mpr (Or.inr (by simp [keysOf, h]))
      · exact List.mem_append.mpr (Or.inl h)
    · exact List.mem_append.mpr (Or.inr (by
        simp only [keysOf, List.map_cons, List.mem_cons]
        exact Or.inr h2))


/-! ## Workflow-trace lemmas -/

theorem onAlertGroup_firing (cfg : Config) (render : Renderer) (sn : SnOracle)
    (data : TmplData) (existing : List Incident)
    (hs : data.status = "firing")
    (hget : sn.getIncidents [(cfg.workflow.incidentGroupKeyField, getGroupKey data)] =
      .ok existing) :
    onAlertGroup cfg render sn data =
      ((onFiringGroup cfg render sn data
          (filterUpdatableIncidents cfg.workflow.noUpdateStates existing).head?).1,
       .getIncidents [(cfg.workflow.incidentGroupKeyField, getGroupKey data)] ::
         (onFiringGroup cfg render sn data
           (filterUpdatableIncidents cfg.workflow.noUpdateStates existing).head?).2) := by
  unfold onAlertGroup
  simp only [hget, hs, if_pos]

theorem onAlertGroup_resolved (cfg : Config) (render : Renderer) (sn : SnOracle)
    (data : TmplData) (existing : List Incident)
    (hs : data.status = "resolved")
    (hget : sn.getIncidents [(cfg.workflow.incidentGroupKeyField, getGroupKey data)] =
      .ok existing) :
    onAlertGroup cfg render sn data =
      ((onResolvedGroup cfg render sn data
          (filterUpdatableIncidents cfg.workflow.noUpdateStates existing).head?).1,
       .getIncidents [(cfg.workflow.incidentGroupKeyField, getGroupKey data)] ::
         (onResolvedGroup cfg render sn data
           (filterUpdatableIncidents cfg.workflow.noUpdateStates existing).head?).2) := by
  unfold onAlertGroup
  simp only [hget, hs]
  rw [if_neg (show ¬ ("resolved" : String) = "firing" by decide)]
  simp

theorem onFiringGroup_some (cfg : Config) (render : Renderer) (sn : SnOracle)
    (data : TmplData) (inc : Incident) :
    onFiringGroup cfg render sn data (some inc) =
      (match sn.updateIncident (filterForUpdate cfg.workflow.incidentUpdateFields
          (candidateIncident cfg render data)) inc.GetSysID with
       | .error e => (.error e,
          [.update (filterForUpdate cfg.workflow.incidentUpdateFields
            (candidateIncident cfg render data)) inc.GetSysID])
       | .ok _ => (.ok (),
          [.update (filterForUpdate cfg.workflow.incidentUpdateFields
            (candidateIncident cfg render data)) inc.GetSysID])) :=
  rfl

theorem onFiringGroup_none (cfg : Config) (render : Renderer) (sn : SnOracle)
    (data : TmplData) :
    onFiringGroup cfg render sn data none =
      (match sn.createIncident (candidateIncident cfg render data) with
       | .error e => (.error e, [.create (candidateIncident cfg render data)])
       | .ok _ => (.ok (), [.create (candidateIncident cfg render data)])) :=
  rfl

theorem onResolvedGroup_some (cfg : Config) (render : Renderer) (sn : SnOracle)
    (data : TmplData) (inc : Incident) :
    onResolvedGroup cfg render sn data (some inc) =
      (match sn.updateIncident (filterForUpdate cfg.workflow.incidentUpdateFields
          (candidateIncident cfg render data)) inc.GetSysID with
       | .error e => (.error e,
          [.update (filterForUpdate cfg.workflow.incidentUpdateFields
            (candidateIncident cfg render data)) inc.GetSysID])
       | .ok _ => (.ok (),
          [.update (filterForUpdate cfg.workflow.incidentUpdateFields
            (candidateIncident cfg render data)) inc.GetSysID])) :=
  rfl

theorem onResolvedGroup_none (cfg : Config) (render : Renderer) (sn : SnOracle)
    (data : TmplData) :
    onResolvedGroup cfg render sn data none = (.ok (), []) :=
  rfl

/-! ## Claims -/

/-- C1: for a firing alert group whose query returns at least one incident
in an updatable (non-`no_update_states`) lifecycle state, the workflow calls
`UpdateIncident` exactly once, with the whitelist-filtered candidate as
payload and the `sys_id` of the first updatable incident in query order, and
never calls `CreateIncident`. -/
theorem firing_updatable_updates_once (cfg : Config) (render : Renderer)
    (sn : SnOracle) (data : TmplData) (existing : List Incident) (first : Incident)
    (hs : data.status = "firing")
    (hget : sn.getIncidents [(cfg.workflow.incidentGroupKeyField, getGroupKey data)] =
      .ok existing)
    (hfirst : (filterUpdatableIncidents cfg.workflow.noUpdateStates existing).head? =
      some first) :
    (onAlertGroup cfg render sn data).2.filter SnCall.isUpdate =
      [SnCall.update (filterForUpdate cfg.workflow.incidentUpdateFields
        (candidateIncident cfg render data)) first.GetSysID] ∧
    (onAlertGroup cfg render sn data).2.filter SnCall.isCreate = [] := by
  rw [onAlertGroup_firing cfg render sn data existing hs hget]
  rw [hfirst, onFiringGroup_some]
  cases sn.updateIncident (filterForUpdate cfg.workflow.incidentUpdateFields
      (candidateIncident cfg render data)) first.GetSysID with
  | error e => simp [SnCall.isUpdate, SnCall.isCreate]
  | ok r => simp [SnCall.isUpdate, SnCall.isCreate]

/-- C1 witness: a concrete firing group with one updatable existing
incident. -/
theorem firing_updatable_updates_once_witness :
    (onAlertGroup cfgW renderId snOneW dataFiringW).2.filter SnCall.isUpdate =
      [SnCall.update (filterForUpdate cfgW.workflow.incidentUpdateFields
        (candidateIncident cfgW renderId dataFiringW)) incUpdatableW.GetSysID] ∧
    (onAlertGroup cfgW renderId snOneW dataFiringW).2.filter SnCall.isCreate = [] :=
  firing_updatable_updates_once cfgW renderId snOneW dataFiringW [incUpdatableW]
    incUpdatableW rfl rfl (by decide)

/-- C2: for a firing alert group whose query returns no incidents, or only
incidents in `no_update_states` states, the workflow calls `CreateIncident`
exactly once with the full candidate incident and never `UpdateIncident`. -/
theorem firing_no_updatable_creates_once (cfg : Config) (render : Renderer)
    (sn : SnOracle) (data : TmplData) (existing : List Incident)
    (hs : data.status = "firing")
    (hget : sn.getIncidents [(cfg.workflow.incidentGroupKeyField, getGroupKey data)] =
      .ok existing)
    (hterm : ∀ i ∈ existing, cfg.workflow.noUpdateStates.contains i.GetState = true) :
    (onAlertGroup cfg render sn data).2.filter SnCall.isCreate =
      [SnCall.create (candidateIncident cfg render data)] ∧
    (onAlertGroup cfg render sn data).2.filter SnCall.isUpdate = [] := by
  have hnil : filterUpdatableIncidents cfg.workflow.noUpdateStates existing = [] := by
    unfold filterUpdatableIncidents
    rw [List.filter_eq_nil_iff]
    intro i hi
    rw [hterm i hi]
    simp
  rw [onAlertGroup_firing cfg render sn data existing hs hget]
  rw [hnil]
  rw [show (List.head? ([] : List Incident)) = none from rfl, onFiringGroup_none]
  cases sn.createIncident (candidateIncident cfg render data) with
  | error e => simp [SnCall.isUpdate, SnCall.isCreate]
  | ok r => simp [SnCall.isUpdate, SnCall.isCreate]

/-- C2 witness: a concrete firing group, once against an oracle with no
existing incidents and once against one with only a terminal-state
incident. -/
theorem firing_no_updatable_creates_once_witness :
    ((onAlertGroup cfgW renderId snEmptyW dataFiringW).2.filter SnCall.isCreate =
      [SnCall.create (candidateIncident cfgW renderId dataFiringW)] ∧
     (onAlertGroup cfgW renderId snEmptyW dataFiringW).2.filter SnCall.isUpdate = []) ∧
    ((onAlertGroup cfgW renderId snTerminalW dataFiringW).2.filter SnCall.isCreate =
      [SnCall.create (candidateIncident cfgW renderId dataFiringW)] ∧
     (onAlertGroup cfgW renderId snTerminalW dataFiringW).2.filter SnCall.isUpdate = []) :=
  ⟨firing_no_updatable_creates_once cfgW renderId snEmptyW dataFiringW [] rfl rfl
      (by intro i hi; cases hi),
   firing_no_updatable_creates_once cfgW renderId snTerminalW dataFiringW [incTerminalW]
      rfl rfl (by decide)⟩

/-- C3: for a resolved alert group, when no updatable incident exists
neither create nor update is called and the handler still answers 200
`Success`; when one exists, update is called with the whitelist-filtered
incident and create is never called. -/
theorem resolved_group_behaviour (cfg : Config) (render : Renderer)
    (sn : SnOracle) (data : TmplData) (existing : List Incident)
    (hs : data.status = "resolved")
    (hget : sn.getIncidents [(cfg.workflow.incidentGroupKeyField, getGroupKey data)] =
      .ok existing) :
    (filterUpdatableIncidents cfg.workflow.noUpdateStates existing = [] →
      (onAlertGroup cfg render sn data).2.filter SnCall.isCreate = [] ∧
      (onAlertGroup cfg render sn data).2.filter SnCall.isUpdate = [] ∧
      webhook cfg render sn (.ok data) =
        (⟨200, "Success"⟩, (onAlertGroup cfg render sn data).2)) ∧
    (∀ first, (filterUpdatableIncidents cfg.workflow.noUpdateStates existing).head? =
        some first →
      (onAlertGroup cfg render sn data).2.filter SnCall.isUpdate =
        [SnCall.update (filterForUpdate cfg.workflow.incidentUpdateFields
          (candidateIncident cfg render data)) first.GetSysID] ∧
      (onAlertGroup cfg render sn data).2.filter SnCall.isCreate = []) := by
  constructor
  · intro hnil
    have hog : onAlertGroup cfg render sn data =
        (.ok (), [.getIncidents
          [(cfg.workflow.incidentGroupKeyField, getGroupKey data)]]) := by
      rw [onAlertGroup_resolved cfg render sn data existing hs hget, hnil]
      rw [show (List.head? ([] : List Incident)) = none from rfl, onResolvedGroup_none]
    rw [hog]
    refine ⟨by simp [SnCall.isCreate], by simp [SnCall.isUpdate], ?_⟩
    simp only [webhook, hog]
  · intro first hfirst
    rw [onAlertGroup_resolved cfg render sn data existing hs hget, hfirst,
      onResolvedGroup_some]
    cases sn.updateIncident (filterForUpdate cfg.workflow.incidentUpdateFields
        (candidateIncident cfg render data)) first.GetSysID with
    | error e => simp [SnCall.isUpdate, SnCall.isCreate]
    | ok r => simp [SnCall.isUpdate, SnCall.isCreate]

/-- C3 witness: a concrete resolved group with no existing incident (no
calls, 200 response) and one with an updatable incident (one update). -/
theorem resolved_group_behaviour_witness :
    ((onAlertGroup cfgW renderId snEmptyW dataResolvedW).2.filter SnCall.isCreate = [] ∧
     (onAlertGroup cfgW renderId snEmptyW dataResolvedW).2.filter SnCall.isUpdate = [] ∧
     webhook cfgW renderId snEmptyW (.ok dataResolvedW) =
       (⟨200, "Success"⟩, (onAlertGroup cfgW renderId snEmptyW dataResolvedW).2)) ∧
    ((onAlertGroup cfgW renderId snOneW dataResolvedW).2.filter SnCall.isUpdate =
       [SnCall.update (filterForUpdate cfgW.workflow.incidentUpdateFields
         (candidateIncident cfgW renderId dataResolvedW)) incUpdatableW.GetSysID] ∧
     (onAlertGroup cfgW renderId snOneW dataResolvedW).2.filter SnCall.isCreate = []) :=
  ⟨(resolved_group_behaviour cfgW renderId snEmptyW dataResolvedW [] rfl rfl).1 rfl,
   (resolved_group_behaviour cfgW renderId snOneW dataResolvedW [incUpdatableW]
      rfl rfl).2 incUpdatableW (by decide)⟩

/-- C7: the webhook handler response classification — parse failure gives
400 with the parse error text and no remote calls; a workflow (query,
create or update) failure gives 500 with the underlying error text, and a
failing query call is the last call of the trace; success gives 200 with
message `Success`. -/
theorem webhook_response_taxonomy (cfg : Config) (render : Renderer)
    (sn : SnOracle) :
    (∀ e, webhook cfg render sn (.error e) = (⟨400, e⟩, [])) ∧
    (∀ data e calls, onAlertGroup cfg render sn data = (.error e, calls) →
      webhook cfg render sn (.ok data) = (⟨500, e⟩, calls)) ∧
    (∀ data u calls, onAlertGroup cfg render sn data = (.ok u, calls) →
      webhook cfg render sn (.ok data) = (⟨200, "Success"⟩, calls)) ∧
    (∀ data e,
      sn.getIncidents [(cfg.workflow.incidentGroupKeyField, getGroupKey data)] =
        .error e →
      webhook cfg render sn (.ok data) =
        (⟨500, e⟩,
         [.getIncidents [(cfg.workflow.incidentGroupKeyField, getGroupKey data)]])) := by
  refine ⟨fun e => rfl, fun data e calls h => ?_, fun data u calls h => ?_,
    fun data e h => ?_⟩
  · simp only [webhook, h]
  · simp only [webhook, h]
  · have hog : onAlertGroup cfg render sn data =
        (.error e,
         [.getIncidents [(cfg.workflow.incidentGroupKeyField, getGroupKey data)]]) := by
      unfold onAlertGroup
      simp only [h]
    simp only [webhook, hog]

/-- C7 witness: the three concrete handler outcomes of the repository's own
tests — bad request, internal error, success. -/
theorem webhook_response_taxonomy_witness :
    webhook cfgW renderId snEmptyW (.error "EOF") = (⟨400, "EOF"⟩, []) ∧
    webhook cfgW renderId snGetFailW (.ok dataFiringW) =
      (⟨500, "Error"⟩,
       [.getIncidents [(cfgW.workflow.incidentGroupKeyField, getGroupKey dataFiringW)]]) ∧
    webhook cfgW renderId snEmptyW (.ok dataFiringW) =
      (⟨200, "Success"⟩, (onAlertGroup cfgW renderId snEmptyW dataFiringW).2) :=
  ⟨(webhook_response_taxonomy cfgW renderId snEmptyW).1 "EOF",
   (webhook_response_taxonomy cfgW renderId snGetFailW).2.2.2 dataFiringW "Error" rfl,
   (webhook_response_taxonomy cfgW renderId snEmptyW).2.2.1 dataFiringW ()
     (onAlertGroup cfgW renderId snEmptyW dataFiringW).2 (by
       rw [onAlertGroup_firing cfgW renderId snEmptyW dataFiringW [] rfl rfl]
       rfl)⟩

/-- C4: `filterForUpdate` keeps exactly the candidate pairs whose key is
whitelisted; in particular an empty whitelist yields the empty mapping. -/
theorem filterForUpdate_whitelist (wl : List String) (incident : StrMap) :
    (∀ k v, (k, v) ∈ filterForUpdate wl incident ↔ ((k, v) ∈ incident ∧ k ∈ wl)) ∧
    filterForUpdate [] incident = [] := by
  constructor
  · intro k v
    simp [filterForUpdate, List.mem_filter]
  · simp [filterForUpdate]

/-- C8: the templating pass processes every field independently — the
result rebinds each field to whatever its own render produced (empty on
failure), failures only add to the recorded error list, and
`alertGroupToIncident` always returns without error. -/
theorem template_failures_nonfatal (render : Renderer) (incident : StrMap)
    (data : TmplData) :
    (applyIncidentTemplate render incident data).1 =
      incident.map (fun p => (p.1, (applyTemplate render p.1 p.2 data).1)) ∧
    (applyIncidentTemplate render incident data).2 =
      incident.filterMap (fun p =>
        (applyTemplate render p.1 p.2 data).2.map (templateErrMsg p.1 p.2)) ∧
    ∀ cfg, alertGroupToIncident cfg render data =
      .ok (candidateIncident cfg render data) := by
  refine ⟨?_, ?_, fun cfg => rfl⟩
  · induction incident with
    | nil => rfl
    | cons p rest ih =>
      obtain ⟨a, b⟩ := p
      simp only [applyIncidentTemplate, List.map_cons]
      rw [ih]
  · induction incident with
    | nil => rfl
    | cons p rest ih =>
      obtain ⟨a, b⟩ := p
      simp only [applyIncidentTemplate, List.filterMap_cons]
      cases he : (applyTemplate render a b data).2 with
      | none => simpa using ih
      | some e => simpa using ih

theorem validationMsg_value_inj (f s t : String)
    (h : validationMsg f s = validationMsg f t) : s = t := by
  have dapp : ∀ a b : String, (a ++ b).data = a.data ++ b.data := fun _ _ => rfl
  have hd := congrArg String.data h
  simp only [validationMsg, dapp, List.append_assoc] at hd
  have h1 := List.append_cancel_left hd
  have h2 := List.append_cancel_left h1
  have h3 := List.append_cancel_left h2
  have h4 := List.append_cancel_right h3
  cases s; cases t
  exact congrArg String.mk (by simpa using h4)

theorem validationMsg_field_ne (s t : String) :
    validationMsg "impact" s ≠ validationMsg "urgency" t := by
  intro h
  have dapp : ∀ a b : String, (a ++ b).data = a.data ++ b.data := fun _ _ => rfl
  have hd := congrArg String.data h
  simp only [validationMsg, dapp, List.append_assoc] at hd
  have h1 := List.append_cancel_left hd
  simp only [List.cons_append] at h1
  injection h1 with h1a h1b
  exact absurd h1a (by decide)

theorem fieldErr_mem (f s s0 : String) :
    (validationMsg f s ∈
      (if s0.length > 0 && !atoiOk s0 then [validationMsg f s0] else [])) ↔
      (s = s0 ∧ 0 < s0.length ∧ atoiOk s0 = false) := by
  by_cases hb : (s0.length > 0 && !atoiOk s0) = true
  · rw [if_pos hb]
    have hb2 : 0 < s0.length ∧ atoiOk s0 = false := by simpa using hb
    simp only [List.mem_singleton]
    constructor
    · intro he
      exact ⟨validationMsg_value_inj f s s0 he, hb2⟩
    · rintro ⟨he, _⟩
      rw [he]
  · rw [if_neg hb]
    simp only [List.not_mem_nil, false_iff]
    rintro ⟨he, hlen, hfalse⟩
    subst he
    exact hb (by simp [hlen, hfalse])

theorem impactMsg_not_in_urgencyErrs (s : String) (o : Option (Option String)) :
    validationMsg "impact" s ∉
      (match o with
       | some (some s0) =>
         if s0.length > 0 && !atoiOk s0 then [validationMsg "urgency" s0] else []
       | _ => []) := by
  match o with
  | none => simp
  | some none => simp
  | some (some s0) =>
    show validationMsg "impact" s ∉
      (if s0.length > 0 && !atoiOk s0 then [validationMsg "urgency" s0] else [])
    by_cases hb : (s0.length > 0 && !atoiOk s0) = true
    · rw [if_pos hb]
      simp only [List.mem_singleton]
      exact validationMsg_field_ne s s0
    · rw [if_neg hb]
      simp

theorem urgencyMsg_not_in_impactErrs (s : String) (o : Option (Option String)) :
    validationMsg "urgency" s ∉
      (match o with
       | some (some s0) =>
         if s0.length > 0 && !atoiOk s0 then [validationMsg "impact" s0] else []
       | _ => []) := by
  match o with
  | none => simp
  | some none => simp
  | some (some s0) =>
    show validationMsg "urgency" s ∉
      (if s0.length > 0 && !atoiOk s0 then [validationMsg "impact" s0] else [])
    by_cases hb : (s0.length > 0 && !atoiOk s0) = true
    · rw [if_pos hb]
      simp only [List.mem_singleton]
      exact fun he => validationMsg_field_ne s0 s he.symm
    · rw [if_neg hb]
      simp

/-- C9: `validateIncident` reports an error for `impact` (resp. `urgency`)
exactly when the field is present, non-nil, and a non-empty string that does
not parse as an integer; it leaves the incident unchanged; and submission
proceeds regardless — `alertGroupToIncident` returns its incident without
error whatever the validation outcome. -/
theorem validateIncident_advisory (incident : Incident) :
    ((validateIncident incident).1 = incident) ∧
    (∀ s, validationMsg "impact" s ∈ (validateIncident incident).2 ↔
      (getRaw incident "impact" = some (some s) ∧ 0 < s.length ∧ atoiOk s = false)) ∧
    (∀ s, validationMsg "urgency" s ∈ (validateIncident incident).2 ↔
      (getRaw incident "urgency" = some (some s) ∧ 0 < s.length ∧ atoiOk s = false)) ∧
    (∀ cfg render data, alertGroupToIncident cfg render data =
      .ok (candidateIncident cfg render data)) := by
  refine ⟨rfl, ?_, ?_, fun _ _ _ => rfl⟩
  · intro s
    unfold validateIncident
    simp only [List.mem_append]
    constructor
    · intro h
      rcases h with h | h
      · revert h
        cases hira : getRaw incident "impact" with
        | none => simp
        | some v =>
          cases v with
          | none => simp
          | some s0 =>
            intro h
            rcases (fieldErr_mem "impact" s s0).mp h with ⟨he, hrest⟩
            exact ⟨by rw [he], by rw [he]; exact hrest.1, by rw [he]; exact hrest.2⟩
      · exact absurd h (impactMsg_not_in_urgencyErrs s (getRaw incident "urgency"))
    · rintro ⟨hr, hlen, hfalse⟩
      left
      rw [hr]
      exact (fieldErr_mem "impact" s s).mpr ⟨rfl, hlen, hfalse⟩
  · intro s
    unfold validateIncident
    simp only [List.mem_append]
    constructor
    · intro h
      rcases h with h | h
      · exact absurd h (urgencyMsg_not_in_impactErrs s (getRaw incident "impact"))
      · revert h
        cases hura : getRaw incident "urgency" with
        | none => simp
        | some v =>
          cases v with
          | none => simp
          | some s0 =>
            intro h
            rcases (fieldErr_mem "urgency" s s0).mp h with ⟨he, hrest⟩
            exact ⟨by rw [he], by rw [he]; exact hrest.1, by rw [he]; exact hrest.2⟩
    · rintro ⟨hr, hlen, hfalse⟩
      right
      rw [hr]
      exact (fieldErr_mem "urgency" s s).mpr ⟨rfl, hlen, hfalse⟩

/-- C10: for every configuration, the candidate incident carries the
`caller_id` key and the configured group-key field key (both survive the
templating pass); and whenever `default_incident` does not override the
group-key field, its value (before templating) is the derived group key. -/
theorem candidate_contains_required_keys (cfg : Config) (render : Renderer)
    (data : TmplData) :
    "caller_id" ∈ keysOf (candidateIncident cfg render data) ∧
    cfg.workflow.incidentGroupKeyField ∈ keysOf (candidateIncident cfg render data) ∧
    (cfg.workflow.incidentGroupKeyField ∉ keysOf cfg.defaultIncident →
      lookupD (baseIncident cfg data) cfg.workflow.incidentGroupKeyField =
        getGroupKey data) := by
  have hkeys : keysOf (candidateIncident cfg render data) =
      keysOf (baseIncident cfg data) := by
    unfold candidateIncident
    exact keysOf_applyIncidentTemplate render (baseIncident cfg data) data
  refine ⟨?_, ?_, fun h => ?_⟩
  · rw [hkeys]
    unfold baseIncident
    exact mem_keysOf_foldl_setField _ _ _
      (mem_keysOf_setField_of_mem _ _ _ _ (mem_keysOf_setField_self _ _ _))
  · rw [hkeys]
    unfold baseIncident
    exact mem_keysOf_foldl_setField _ _ _ (mem_keysOf_setField_self _ _ _)
  · unfold baseIncident
    rw [lookupD_foldl_setField _ _ _
      (fun p hp he => h (by rw [← he]; exact List.mem_map_of_mem Prod.fst hp))]
    exact lookupD_setField_self _ _ _

/-- C10 witness: the example configuration, whose `default_incident` does
not override the group-key field, so the value conjunct applies too. -/
theorem candidate_contains_required_keys_witness :
    "caller_id" ∈ keysOf (candidateIncident cfgW renderId dataFiringW) ∧
    cfgW.workflow.incidentGroupKeyField ∈
      keysOf (candidateIncident cfgW renderId dataFiringW) ∧
    lookupD (baseIncident cfgW dataFiringW) cfgW.workflow.incidentGroupKeyField =
      getGroupKey dataFiringW :=
  ⟨(candidate_contains_required_keys cfgW renderId dataFiringW).1,
   (candidate_contains_required_keys cfgW renderId dataFiringW).2.1,
   (candidate_contains_required_keys cfgW renderId dataFiringW).2.2 (by decide)⟩

theorem keysOf_filterForUpdate_subset (wl : List String) (m : StrMap) :
    keysOf (filterForUpdate wl m) ⊆ keysOf m :=
  List.map_subset Prod.fst (List.filter_sublist _).subset

theorem onAlertGroup_getFail (cfg : Config) (render : Renderer) (sn : SnOracle)
    (data : TmplData) (e : String)
    (hget : sn.getIncidents [(cfg.workflow.incidentGroupKeyField, getGroupKey data)] =
      .error e) :
    onAlertGroup cfg render sn data =
      (.error e,
       [.getIncidents [(cfg.workflow.incidentGroupKeyField, getGroupKey data)]]) := by
  unfold onAlertGroup
  simp only [hget]

theorem onAlertGroup_other (cfg : Config) (render : Renderer) (sn : SnOracle)
    (data : TmplData) (existing : List Incident)
    (hs1 : ¬ data.status = "firing") (hs2 : ¬ data.status = "resolved")
    (hget : sn.getIncidents [(cfg.workflow.incidentGroupKeyField, getGroupKey data)] =
      .ok existing) :
    onAlertGroup cfg render sn data =
      (.ok (),
       [.getIncidents [(cfg.workflow.incidentGroupKeyField, getGroupKey data)]]) := by
  unfold onAlertGroup
  simp only [hget]
  rw [if_neg hs1, if_neg hs2]

theorem update_calls_payload (cfg : Config) (render : Renderer) (sn : SnOracle)
    (data : TmplData) (p : StrMap) (sid : String)
    (hmem : SnCall.update p sid ∈ (onAlertGroup cfg render sn data).2) :
    p = filterForUpdate cfg.workflow.incidentUpdateFields
      (candidateIncident cfg render data) := by
  cases hget : sn.getIncidents
      [(cfg.workflow.incidentGroupKeyField, getGroupKey data)] with
  | error e =>
    rw [onAlertGroup_getFail cfg render sn data e hget] at hmem
    simp at hmem
  | ok existing =>
    by_cases hs1 : data.status = "firing"
    · rw [onAlertGroup_firing cfg render sn data existing hs1 hget] at hmem
      cases hh : (filterUpdatableIncidents cfg.workflow.noUpdateStates existing).head? with
      | none =>
        rw [hh, onFiringGroup_none] at hmem
        cases hc : sn.createIncident (candidateIncident cfg render data) <;>
          rw [hc] at hmem <;> simp at hmem
      | some inc =>
        rw [hh, onFiringGroup_some] at hmem
        cases hu : sn.updateIncident (filterForUpdate cfg.workflow.incidentUpdateFields
            (candidateIncident cfg render data)) inc.GetSysID <;>
          rw [hu] at hmem <;> simp at hmem <;> exact hmem.1
    · by_cases hs2 : data.status = "resolved"
      · rw [onAlertGroup_resolved cfg render sn data existing hs2 hget] at hmem
        cases hh : (filterUpdatableIncidents cfg.workflow.noUpdateStates existing).head? with
        | none =>
          rw [hh, onResolvedGroup_none] at hmem
          simp at hmem
        | some inc =>
          rw [hh, onResolvedGroup_some] at hmem
          cases hu : sn.updateIncident (filterForUpdate cfg.workflow.incidentUpdateFields
              (candidateIncident cfg render data)) inc.GetSysID <;>
            rw [hu] at hmem <;> simp at hmem <;> exact hmem.1
      · rw [onAlertGroup_other cfg render sn data existing hs1 hs2 hget] at hmem
        simp at hmem

/-- C5 (amended): whenever the configuration itself does not supply a
`state` field — `state` is not a `default_incident` key and the group-key
field is not named `state` — no `UpdateIncident` payload contains the
lifecycle `state` field, and neither does the candidate incident.  (The
workflow never adds `state` on its own; with a configuration that lists
`state` in `default_incident` and whitelists it, the payload does contain
it — see the counterexample.) -/
theorem update_payload_never_contains_state (cfg : Config) (render : Renderer)
    (sn : SnOracle) (data : TmplData)
    (h1 : "state" ∉ keysOf cfg.defaultIncident)
    (h2 : cfg.workflow.incidentGroupKeyField ≠ "state") :
    (∀ p sid, SnCall.update p sid ∈ (onAlertGroup cfg render sn data).2 →
      "state" ∉ keysOf p) ∧
    "state" ∉ keysOf (candidateIncident cfg render data) := by
  have hcand : "state" ∉ keysOf (candidateIncident cfg render data) := by
    unfold candidateIncident
    rw [keysOf_applyIncidentTemplate]
    intro hc
    unfold baseIncident at hc
    rcases List.mem_append.mp (keysOf_foldl_setField_subset cfg.defaultIncident _ hc)
      with hlit | hdef
    · rcases List.mem_cons.mp (keysOf_setField_subset _ _ _ hlit) with he | he
      · exact h2 he.symm
      · rcases List.mem_cons.mp (keysOf_setField_subset _ _ _ he) with he2 | he2
        · exact absurd he2 (by decide)
        · exact absurd he2 (by simp [keysOf])
    · exact h1 hdef
  refine ⟨?_, hcand⟩
  intro p sid hmem
  rw [update_calls_payload cfg render sn data p sid hmem]
  intro hs
  exact hcand (keysOf_filterForUpdate_subset _ _ hs)

/-- C5 witness: the example configuration (no `state` among the defaults,
group-key field not named `state`) against an oracle with one updatable
incident. -/
theorem update_payload_never_contains_state_witness :
    (∀ p sid, SnCall.update p sid ∈ (onAlertGroup cfgW renderId snOneW dataFiringW).2 →
      "state" ∉ keysOf p) ∧
    "state" ∉ keysOf (candidateIncident cfgW renderId dataFiringW) :=
  update_payload_never_contains_state cfgW renderId snOneW dataFiringW
    (by decide) (by decide)

/-- C5 counterexample: with `state` configured both as a default-incident
field and as an update whitelist field, the payload submitted to
`UpdateIncident` for a firing group with an updatable incident does contain
the lifecycle `state` field — the claim fails for this configuration. -/
theorem update_payload_contains_state_counterexample :
    ∃ p sid, SnCall.update p sid ∈ (onAlertGroup cfgStateX renderId snOneW dataFiringW).2 ∧
      "state" ∈ keysOf p :=
  ⟨[("state", "3")], "424242", by decide, by decide⟩

theorem lookupD_perm (l1 l2 : List (String × String)) (h : l1.Perm l2) :
    (l1.map Prod.fst).Nodup → ∀ k, lookupD l1 k = lookupD l2 k := by
  induction h with
  | nil => intro _ k; rfl
  | cons p h ih =>
    intro nd k
    simp only [List.map_cons, List.nodup_cons] at nd
    by_cases hp : p.1 = k <;> simp [lookupD, hp, ih nd.2 k]
  | swap x y l =>
    intro nd k
    rw [List.map_cons, List.map_cons] at nd
    obtain ⟨hny, hnd2⟩ := List.nodup_cons.mp nd
    have hxy : ¬ (y.1 = x.1) := fun hh => hny (by rw [hh]; exact List.mem_cons_self _ _)
    by_cases h1 : y.1 = k
    · have h2 : ¬ (x.1 = k) := fun hh => hxy (h1.trans hh.symm)
      simp [lookupD, h1, h2]
    · by_cases h2 : x.1 = k <;> simp [lookupD, h1, h2]
  | trans h1 h2 ih1 ih2 =>
    intro nd k
    have nd2 := (h1.map Prod.fst).nodup_iff.mp nd
    exact (ih1 nd k).trans (ih2 nd2 k)

theorem sortedPairs_perm (l1 l2 : List (String × String)) (h : l1.Perm l2)
    (nd : (l1.map Prod.fst).Nodup) : sortedPairs l1 = sortedPairs l2 := by
  unfold sortedPairs
  have hk : (l1.map Prod.fst).Perm (l2.map Prod.fst) := h.map Prod.fst
  have hsort : (l1.map Prod.fst).insertionSort (· ≤ ·) =
      (l2.map Prod.fst).insertionSort (· ≤ ·) := by
    exact List.eq_of_perm_of_sorted
      (((List.perm_insertionSort _ _).trans hk).trans
        (List.perm_insertionSort _ _).symm)
      (List.sorted_insertionSort _ _) (List.sorted_insertionSort _ _)
  rw [hsort]
  exact List.map_congr_left (fun k _ => by rw [lookupD_perm l1 l2 h nd k])

theorem hexChar_mem (n : Nat) : hexChar n ∈ lowercaseHexDigits := by
  unfold hexChar
  by_cases h : n < lowercaseHexDigits.length
  · rw [List.getD_eq_getElem _ _ h]
    exact List.getElem_mem h
  · rw [List.getD_eq_default _ _ (Nat.le_of_not_lt h)]
    decide

theorem toHex_chars (bs : List Nat) : ∀ c ∈ (toHex bs).data, c ∈ lowercaseHexDigits := by
  intro c hc
  have hc2 : c ∈ (bs.map fun b => [hexChar (b / 16 % 16), hexChar (b % 16)]).flatten := hc
  simp only [List.mem_flatten, List.mem_map] at hc2
  obtain ⟨l, ⟨b, hb, rfl⟩, hcl⟩ := hc2
  simp only [List.mem_cons, List.not_mem_nil, or_false] at hcl
  rcases hcl with rfl | rfl <;> exact hexChar_mem _

theorem toHex_length (bs : List Nat) : (toHex bs).length = 2 * bs.length := by
  show ((bs.map fun b => [hexChar (b / 16 % 16), hexChar (b % 16)]).flatten).length =
    2 * bs.length
  induction bs with
  | nil => rfl
  | cons b rest ih =>
    simp only [List.map_cons, List.flatten_cons, List.length_append, List.length_cons,
      List.length_nil, ih]
    omega

theorem md5Bytes_length (msg : List Nat) : (md5Bytes msg).length = 16 := by
  unfold md5Bytes
  simp [le32bytes]

/-- C6: the group key is invariant under permuting the grouping labels
(order independence; the derivation has no machine-specific input), and it
is the lowercase hex encoding of the 128-bit MD5 digest of the canonical
rendering of the sorted pairs: 32 characters, all lowercase hex digits. -/
theorem groupKey_deterministic_hex (data : TmplData)
    (labels2 : List (String × String))
    (hnd : (data.groupLabels.map Prod.fst).Nodup)
    (hperm : data.groupLabels.Perm labels2) :
    getGroupKey data = getGroupKey { data with groupLabels := labels2 } ∧
    (getGroupKey data).length = 32 ∧
    ∀ c ∈ (getGroupKey data).data, c ∈ lowercaseHexDigits := by
  refine ⟨?_, ?_, fun c hc => toHex_chars _ c hc⟩
  · unfold getGroupKey
    rw [sortedPairs_perm data.groupLabels labels2 hperm hnd]
  · unfold getGroupKey
    rw [toHex_length, md5Bytes_length]

/-- C6 witness: a two-label group and its reversal. -/
theorem groupKey_deterministic_hex_witness :
    getGroupKey dataTwoLabelsW =
      getGroupKey { dataTwoLabelsW with
        groupLabels := [("instance", "web-1"), ("alertname", "HighCPU")] } ∧
    (getGroupKey dataTwoLabelsW).length = 32 ∧
    ∀ c ∈ (getGroupKey dataTwoLabelsW).data, c ∈ lowercaseHexDigits :=
  groupKey_deterministic_hex dataTwoLabelsW
    [("instance", "web-1"), ("alertname", "HighCPU")] (by decide) (by decide)

end SnWebhook
